import Mathlib

/-!
# Verification of the apple-notes-exporter script-invocation subsystem

Shallow embedding of the TypeScript sources (`exporter.ts`, `errors.ts`, and
the facade module) into Lean 4.  Filesystem state and spawned child processes
are modelled explicitly; the behaviour of the operating system (the outcomes
of `spawn` / `spawnSync`) is an input to the model, supplied by the
environment.
-/

/-- The error taxonomy of `errors.ts`.  Each subclass of `ExportError` becomes
one constructor carrying the same structured fields (the human-readable
message is derivable from the fields, so it is not duplicated here).
`LaunchError.cause` (a JS `Error`) is modelled as a string.  -/
inductive ExportError where
  | UnsupportedPlatformError (platform : String)
  | ScriptNotFoundError (scriptPath : String)
  | TempFileError (cause : String)
  | InvalidPathError (path : String)
  | LaunchError (cause : String)
  | ScriptFailedError (exitCode : Int) (stderr : Option String)
deriving DecidableEq, Repr

/-- `ScriptSource` from `exporter.ts`: tagged union of the embedded (vendored)
script and an explicit path. -/
inductive ScriptSource where
  | embedded
  | path (path : String)
deriving DecidableEq, Repr

/-- The `Exporter` class state: the sole field `scriptSource`, immutable after
construction. -/
structure Exporter where
  scriptSource : ScriptSource
deriving DecidableEq, Repr

/-- Outcome of an asynchronous `spawn`: either the `error` event fired (spawn
failure, with the OS error modelled as a string), or the `exit` event fired
with an exit code (`number | null`) and a signal (`string | null`).  Node
signal names are never the empty string, so JS truthiness of the signal field
coincides with it being non-null. -/
inductive SpawnOutcome where
  | errorEvent (cause : String)
  | exitEvent (code : Option Int) (signal : Option String)
deriving DecidableEq, Repr

/-- Result object of Node's `spawnSync`: the fields the code reads.
`error` is `Error | undefined`, `status` is `number | null`. -/
structure SpawnSyncResult where
  error : Option String
  status : Option Int
  signal : Option String
deriving DecidableEq, Repr

/-- Filesystem model: the sets of existing regular files and directories,
identified by absolute path strings. -/
structure FS where
  files : List String
  dirs : List String
deriving DecidableEq, Repr

/-- Model of `fs.existsSync`: the path is an existing file or directory. -/
def existsSync (fs : FS) (p : String) : Bool :=
  fs.files.contains p || fs.dirs.contains p

/-- Model of Node's `path.isAbsolute` on POSIX: the path starts with `/`. -/
def isAbsolute (p : String) : Bool :=
  match p.data with
  | [] => false
  | c :: _ => c == '/'

/-- Model of Node's `path.resolve(cwd, p)` on POSIX: an absolute `p` is
returned as is, a relative `p` is joined onto the (absolute) working
directory, and the empty path resolves to the working directory itself.
Node additionally normalises `.`/`..` segments; normalisation does not
affect any property proved here (emptiness, absoluteness, determinism),
so the joined path is kept un-normalised. -/
def pathResolve (cwd p : String) : String :=
  if p = "" then cwd
  else if isAbsolute p then p
  else cwd ++ "/" ++ p

/-- Split a character list at every `/`, accumulating the current segment in
reverse. -/
def splitSegsAux : List Char → List Char → List String
  | [], acc => [String.mk acc.reverse]
  | c :: cs, acc =>
    if c = '/' then String.mk acc.reverse :: splitSegsAux cs []
    else splitSegsAux cs (c :: acc)

/-- The `/`-separated segments of a path (as `p.split (· = '/')`). -/
def splitSegs (p : String) : List String :=
  splitSegsAux p.data []

/-- Rejoin path segments with `/` separators. -/
def joinSegs : List String → String
  | [] => ""
  | [s] => s
  | s :: rest => s ++ "/" ++ joinSegs rest

/-- The proper ancestor directories of a path: for `/a/b/c` these are
`/a` and `/a/b` (computed from the `/`-separated segments, dropping the
empty root artefact). -/
def parentPaths (p : String) : List String :=
  let segs := splitSegs p
  ((List.range segs.length).map
    (fun n => joinSegs (segs.take n))).filter (fun d => d ≠ "")

/-- The directories guaranteed to exist after `fs.mkdirSync(p, {recursive})`:
all proper ancestors of `p`, and `p` itself. -/
def dirAncestors (p : String) : List String :=
  parentPaths p ++ [p]

/-- Model of `fs.mkdirSync(p, { recursive: true })`: insert `p` and every
missing ancestor directory; silently succeed when they already exist. -/
def FS.mkdirRecursive (fs : FS) (p : String) : FS :=
  { fs with
    dirs := fs.dirs ++ (dirAncestors p).filter (fun d => !(fs.dirs.contains d)) }

/-- The ambient execution environment: the process platform, the working
directory, the compiled module's `__dirname`, the initial filesystem, and the
operating system's behaviour for process launches (keyed by the full argv of
the launched command). -/
structure Env where
  platform : String
  cwd : String
  dirname : String
  fs : FS
  spawnResult : List String → SpawnOutcome
  spawnSyncResult : List String → SpawnSyncResult

/-- Mutable observable state threaded through one API call: the filesystem and
the argv lists of the child processes launched so far, in order. -/
structure RunState where
  fs : FS
  spawned : List (List String)

/-- The observable state at the start of a call, before any side effect. -/
def RunState.init (env : Env) : RunState :=
  { fs := env.fs, spawned := [] }

/-- `VENDORED_SCRIPT_PATH` from `exporter.ts` (`path.join` with POSIX
separators). -/
def VENDORED_SCRIPT_PATH : String :=
  "vendor/apple-notes-exporter/scripts/export_notes.applescript"

/-- `checkPlatform` (exporter.ts:52-56): throw `UnsupportedPlatformError`
unless the platform is `darwin`. -/
def checkPlatform (env : Env) : Except ExportError Unit :=
  if env.platform ≠ "darwin" then
    .error (.UnsupportedPlatformError env.platform)
  else
    .ok ()

/-- `getPackageRoot` (exporter.ts:62-66): `path.resolve(__dirname, "..")`. -/
def getPackageRoot (env : Env) : String :=
  pathResolve env.dirname ".."

/-- `getVendoredScriptPath` (exporter.ts:71-73):
`path.resolve(getPackageRoot(), VENDORED_SCRIPT_PATH)`. -/
def getVendoredScriptPath (env : Env) : String :=
  pathResolve (getPackageRoot env) VENDORED_SCRIPT_PATH

namespace Exporter

/-- `Exporter.create` (exporter.ts:110-112): embedded script source, no
filesystem interaction. -/
def create : Exporter :=
  { scriptSource := .embedded }

/-- `Exporter.withScriptPath` (exporter.ts:126-132): resolve the path against
the working directory, fail fast with `ScriptNotFoundError` if it does not
exist, otherwise store the resolved path. -/
def withScriptPath (env : Env) (scriptPath : String) : Except ExportError Exporter :=
  let resolvedPath := pathResolve env.cwd scriptPath
  if !(existsSync env.fs resolvedPath) then
    .error (.ScriptNotFoundError resolvedPath)
  else
    .ok { scriptSource := .path resolvedPath }

/-- `runScriptFile` (exporter.ts:294-325): spawn
`osascript <scriptPath> <...args>` and map the process outcome.  The spawn
attempt is recorded in the state; the `error` / `exit` events and their
handlers are mirrored exactly, including the order of the `code === 0`,
`code !== null` and `signal` checks. -/
def runScriptFile (env : Env) (st : RunState) (scriptPath : String)
    (args : List String) : Except ExportError Unit × RunState :=
  let argv := "osascript" :: scriptPath :: args
  let st := { st with spawned := st.spawned ++ [argv] }
  match env.spawnResult argv with
  | .errorEvent cause => (.error (.LaunchError cause), st)
  | .exitEvent code signal =>
    if code = some 0 then
      (.ok (), st)
    else
      match code with
      | some c => (.error (.ScriptFailedError c none), st)
      | none =>
        match signal with
        | some s =>
          (.error (.ScriptFailedError (-1)
            (some ("Process terminated by signal: " ++ s))), st)
        | none => (.error (.ScriptFailedError (-1) (some "Unknown error")), st)

/-- `runScriptFileSync` (exporter.ts:327-339): `spawnSync` then
`if (result.error) throw LaunchError` and
`if (result.status !== 0) throw ScriptFailedError(result.status ?? -1)`. -/
def runScriptFileSync (env : Env) (st : RunState) (scriptPath : String)
    (args : List String) : Except ExportError Unit × RunState :=
  let argv := "osascript" :: scriptPath :: args
  let st := { st with spawned := st.spawned ++ [argv] }
  let result := env.spawnSyncResult argv
  match result.error with
  | some cause => (.error (.LaunchError cause), st)
  | none =>
    if result.status ≠ some 0 then
      (.error (.ScriptFailedError (result.status.getD (-1)) none), st)
    else
      (.ok (), st)

/-- `runEmbeddedScript` (exporter.ts:278-284): compute the vendored script
path, check its existence at call time, then run it. -/
def runEmbeddedScript (env : Env) (st : RunState) (args : List String) :
    Except ExportError Unit × RunState :=
  let scriptPath := getVendoredScriptPath env
  if !(existsSync st.fs scriptPath) then
    (.error (.ScriptNotFoundError scriptPath), st)
  else
    runScriptFile env st scriptPath args

/-- `runEmbeddedScriptSync` (exporter.ts:286-292). -/
def runEmbeddedScriptSync (env : Env) (st : RunState) (args : List String) :
    Except ExportError Unit × RunState :=
  let scriptPath := getVendoredScriptPath env
  if !(existsSync st.fs scriptPath) then
    (.error (.ScriptNotFoundError scriptPath), st)
  else
    runScriptFileSync env st scriptPath args

/-- `runScript` (exporter.ts:258-266): platform guard first, then dispatch on
the script source. -/
def runScript (ex : Exporter) (env : Env) (st : RunState) (args : List String) :
    Except ExportError Unit × RunState :=
  match checkPlatform env with
  | .error e => (.error e, st)
  | .ok _ =>
    match ex.scriptSource with
    | .embedded => runEmbeddedScript env st args
    | .path p => runScriptFile env st p args

/-- `runScriptSync` (exporter.ts:268-276). -/
def runScriptSync (ex : Exporter) (env : Env) (st : RunState)
    (args : List String) : Except ExportError Unit × RunState :=
  match checkPlatform env with
  | .error e => (.error e, st)
  | .ok _ =>
    match ex.scriptSource with
    | .embedded => runEmbeddedScriptSync env st args
    | .path p => runScriptFileSync env st p args

/-- `prepareOutputDir` (exporter.ts:245-256): `fs.mkdirSync(outputDir,
{recursive: true})` (Node resolves the argument against the working
directory, so the model creates the resolved path), then `path.resolve`,
throwing `InvalidPathError` when the resolved string is falsy (empty). -/
def prepareOutputDir (env : Env) (st : RunState) (outputDir : String) :
    Except ExportError String × RunState :=
  let st := { st with fs := st.fs.mkdirRecursive (pathResolve env.cwd outputDir) }
  let resolved := pathResolve env.cwd outputDir
  if resolved = "" then
    (.error (.InvalidPathError outputDir), st)
  else
    (.ok resolved, st)

/-- `exportFolderImpl` (exporter.ts:232-238): prepare the output directory,
then run `["export", folderSpec, resolvedOutputDir]`. -/
def exportFolderImpl (ex : Exporter) (env : Env) (st : RunState)
    (folderSpec outputDir : String) : Except ExportError Unit × RunState :=
  match prepareOutputDir env st outputDir with
  | (.error e, st) => (.error e, st)
  | (.ok resolvedOutputDir, st) =>
    runScript ex env st ["export", folderSpec, resolvedOutputDir]

/-- `exportFolderImplSync` (exporter.ts:240-243). -/
def exportFolderImplSync (ex : Exporter) (env : Env) (st : RunState)
    (folderSpec outputDir : String) : Except ExportError Unit × RunState :=
  match prepareOutputDir env st outputDir with
  | (.error e, st) => (.error e, st)
  | (.ok resolvedOutputDir, st) =>
    runScriptSync ex env st ["export", folderSpec, resolvedOutputDir]

/-- `Exporter.listFolders` (exporter.ts:145-147): `runScript(["list"])`. -/
def listFolders (ex : Exporter) (env : Env) (st : RunState) :
    Except ExportError Unit × RunState :=
  runScript ex env st ["list"]

/-- `Exporter.listFoldersSync` (exporter.ts:152-154). -/
def listFoldersSync (ex : Exporter) (env : Env) (st : RunState) :
    Except ExportError Unit × RunState :=
  runScriptSync ex env st ["list"]

/-- `Exporter.exportFolder` (exporter.ts:177-179). -/
def exportFolder (ex : Exporter) (env : Env) (st : RunState)
    (folder outputDir : String) : Except ExportError Unit × RunState :=
  exportFolderImpl ex env st folder outputDir

/-- `Exporter.exportFolderSync` (exporter.ts:184-186). -/
def exportFolderSync (ex : Exporter) (env : Env) (st : RunState)
    (folder outputDir : String) : Except ExportError Unit × RunState :=
  exportFolderImplSync ex env st folder outputDir

/-- `Exporter.exportFolderFromAccount` (exporter.ts:211-218): build the folder
specifier `account ++ ":" ++ folder` and delegate. -/
def exportFolderFromAccount (ex : Exporter) (env : Env) (st : RunState)
    (account folder outputDir : String) : Except ExportError Unit × RunState :=
  let folderSpec := account ++ ":" ++ folder
  exportFolderImpl ex env st folderSpec outputDir

/-- `Exporter.exportFolderFromAccountSync` (exporter.ts:223-230). -/
def exportFolderFromAccountSync (ex : Exporter) (env : Env) (st : RunState)
    (account folder outputDir : String) : Except ExportError Unit × RunState :=
  let folderSpec := account ++ ":" ++ folder
  exportFolderImplSync ex env st folderSpec outputDir

end Exporter

/-- Facade `listFolders` (index.ts:76-79): construct a default exporter and
delegate. -/
def listFolders (env : Env) (st : RunState) : Except ExportError Unit × RunState :=
  let exporter := Exporter.create
  Exporter.listFolders exporter env st

/-- Facade `listFoldersSync` (index.ts:84-87). -/
def listFoldersSync (env : Env) (st : RunState) : Except ExportError Unit × RunState :=
  let exporter := Exporter.create
  Exporter.listFoldersSync exporter env st

/-- Facade `exportFolder` (index.ts:109-115). -/
def exportFolder (env : Env) (st : RunState) (folder outputDir : String) :
    Except ExportError Unit × RunState :=
  let exporter := Exporter.create
  Exporter.exportFolder exporter env st folder outputDir

/-- Facade `exportFolderSync` (index.ts:120-123). -/
def exportFolderSync (env : Env) (st : RunState) (folder outputDir : String) :
    Except ExportError Unit × RunState :=
  let exporter := Exporter.create
  Exporter.exportFolderSync exporter env st folder outputDir

/-- Facade `exportFolderFromAccount` (index.ts:148-155). -/
def exportFolderFromAccount (env : Env) (st : RunState)
    (account folder outputDir : String) : Except ExportError Unit × RunState :=
  let exporter := Exporter.create
  Exporter.exportFolderFromAccount exporter env st account folder outputDir

/-- Facade `exportFolderFromAccountSync` (index.ts:160-167). -/
def exportFolderFromAccountSync (env : Env) (st : RunState)
    (account folder outputDir : String) : Except ExportError Unit × RunState :=
  let exporter := Exporter.create
  Exporter.exportFolderFromAccountSync exporter env st account folder outputDir

/-- The asynchronous outcome mapping exactly as the specification words it
(spec §4.4): spawn failure → `LaunchFailed(cause)`; exit 0 → success;
non-zero exit `n` → `ScriptExitedNonZero(n)` with no stderr text; signal
termination → `ScriptExitedNonZero(-1)` with signal-naming text; neither
code nor signal → `ScriptExitedNonZero(-1, "Unknown error")`.  Used to state
the refinement claims about the runners. -/
def asyncOutcomeSpec : SpawnOutcome → Except ExportError Unit
  | .errorEvent cause => .error (.LaunchError cause)
  | .exitEvent (some 0) _ => .ok ()
  | .exitEvent (some n) _ => .error (.ScriptFailedError n none)
  | .exitEvent none (some s) =>
      .error (.ScriptFailedError (-1)
        (some ("Process terminated by signal: " ++ s)))
  | .exitEvent none none =>
      .error (.ScriptFailedError (-1) (some "Unknown error"))

/-- The `spawnSync` result object corresponding to an asynchronous spawn
outcome: a spawn failure surfaces in the `error` field; an exit event
surfaces its code and signal in the `status` and `signal` fields. -/
def syncResultOfOutcome : SpawnOutcome → SpawnSyncResult
  | .errorEvent cause => { error := some cause, status := none, signal := none }
  | .exitEvent code signal => { error := none, status := code, signal := signal }

/-- The resolved script path of an exporter (spec §4.2 `resolve()`): the
stored explicit path, or the computed vendored location for the default
source. -/
def scriptPathOf (ex : Exporter) (env : Env) : String :=
  match ex.scriptSource with
  | .embedded => getVendoredScriptPath env
  | .path p => p

/-- A concrete filesystem for witnesses: one candidate custom script under
the working directory and the vendored script at its computed location. -/
def sampleFS : FS :=
  { files :=
      ["/work/s.scpt",
       "/pkg/dist/../vendor/apple-notes-exporter/scripts/export_notes.applescript"],
    dirs := [] }

/-- A concrete environment for witnesses: darwin platform, absolute working
directory, and a child process that exits cleanly. -/
def sampleEnv : Env :=
  { platform := "darwin"
    cwd := "/work"
    dirname := "/pkg/dist"
    fs := sampleFS
    spawnResult := fun _ => .exitEvent (some 0) none
    spawnSyncResult := fun _ => { error := none, status := some 0, signal := none } }

/-- The sample environment on a non-darwin platform. -/
def linuxEnv : Env :=
  { sampleEnv with platform := "linux" }

/-- The sample environment with an empty filesystem (no script anywhere). -/
def emptyFsEnv : Env :=
  { sampleEnv with fs := { files := [], dirs := [] } }

/-- The sample environment whose child process is killed by SIGKILL: the
asynchronous `exit` event reports no code and the signal, the synchronous
result reports a `null` status and the signal. -/
def sigKillEnv : Env :=
  { sampleEnv with
    spawnResult := fun _ => .exitEvent none (some "SIGKILL")
    spawnSyncResult := fun _ =>
      { error := none, status := none, signal := some "SIGKILL" } }

/-! ### Helper lemmas about the filesystem and path models -/

theorem mem_dirAncestors_self (p : String) : p ∈ dirAncestors p := by
  simp [dirAncestors]

theorem mem_dirs_mkdirRecursive (fs : FS) (p : String) :
    ∀ d ∈ dirAncestors p, d ∈ (fs.mkdirRecursive p).dirs := by
  intro d hd
  simp only [FS.mkdirRecursive, List.mem_append, List.mem_filter]
  by_cases h : d ∈ fs.dirs
  · exact Or.inl h
  · exact Or.inr ⟨hd, by simpa using h⟩

theorem mkdirRecursive_idem (fs : FS) (p : String) :
    (fs.mkdirRecursive p).mkdirRecursive p = fs.mkdirRecursive p := by
  have hfilter :
      (dirAncestors p).filter
        (fun d => !((fs.mkdirRecursive p).dirs.contains d)) = [] := by
    refine List.filter_eq_nil_iff.mpr ?_
    intro d hd
    simp [mem_dirs_mkdirRecursive fs p d hd]
  calc (fs.mkdirRecursive p).mkdirRecursive p
      = { fs.mkdirRecursive p with
          dirs := (fs.mkdirRecursive p).dirs ++
            (dirAncestors p).filter
              (fun d => !((fs.mkdirRecursive p).dirs.contains d)) } := rfl
    _ = fs.mkdirRecursive p := by rw [hfilter, List.append_nil]

theorem existsSync_mkdirRecursive (fs : FS) (p q : String)
    (h : existsSync fs q = true) :
    existsSync (fs.mkdirRecursive p) q = true := by
  simp [existsSync, FS.mkdirRecursive] at h ⊢
  tauto

theorem isAbsolute_append (a b : String) (h : isAbsolute a = true) :
    isAbsolute (a ++ b) = true := by
  unfold isAbsolute at h ⊢
  rw [String.data_append]
  cases ha : a.data with
  | nil => rw [ha] at h; simp at h
  | cons c cs => rw [ha] at h; exact h

theorem isAbsolute_pathResolve (cwd p : String) (h : isAbsolute cwd = true) :
    isAbsolute (pathResolve cwd p) = true := by
  unfold pathResolve
  split
  · exact h
  · split
    · assumption
    · exact isAbsolute_append _ _ (isAbsolute_append _ _ h)

theorem pathResolve_ne_empty (cwd p : String) (h : isAbsolute cwd = true) :
    pathResolve cwd p ≠ "" := by
  intro he
  have habs := isAbsolute_pathResolve cwd p h
  rw [he] at habs
  exact absurd habs (by decide)

theorem runScriptFile_ne_scriptNotFound (env : Env) (st : RunState)
    (scriptPath : String) (args : List String) (q : String) :
    (Exporter.runScriptFile env st scriptPath args).1 ≠
      .error (.ScriptNotFoundError q) := by
  cases h : env.spawnResult ("osascript" :: scriptPath :: args) with
  | errorEvent c => simp [Exporter.runScriptFile, h]
  | exitEvent code signal =>
    cases code with
    | none => cases signal <;> simp [Exporter.runScriptFile, h]
    | some c =>
      by_cases hc : c = 0
      · subst hc; simp [Exporter.runScriptFile, h]
      · simp [Exporter.runScriptFile, h, hc]

theorem runScriptFile_state (env : Env) (st : RunState) (scriptPath : String)
    (args : List String) :
    (Exporter.runScriptFile env st scriptPath args).2 =
      { st with spawned := st.spawned ++ ["osascript" :: scriptPath :: args] } := by
  cases h : env.spawnResult ("osascript" :: scriptPath :: args) with
  | errorEvent c => simp [Exporter.runScriptFile, h]
  | exitEvent code signal =>
    cases code with
    | none => cases signal <;> simp [Exporter.runScriptFile, h]
    | some c =>
      by_cases hc : c = 0
      · subst hc; simp [Exporter.runScriptFile, h]
      · simp [Exporter.runScriptFile, h, hc]

theorem runScriptFileSync_state (env : Env) (st : RunState) (scriptPath : String)
    (args : List String) :
    (Exporter.runScriptFileSync env st scriptPath args).2 =
      { st with spawned := st.spawned ++ ["osascript" :: scriptPath :: args] } := by
  cases h : env.spawnSyncResult ("osascript" :: scriptPath :: args) with
  | mk err status signal =>
    cases err with
    | some c => simp [Exporter.runScriptFileSync, h]
    | none =>
      by_cases hs : status = some 0
      · subst hs; simp [Exporter.runScriptFileSync, h]
      · simp [Exporter.runScriptFileSync, h, hs]

theorem runScript_not_darwin (ex : Exporter) (env : Env) (st : RunState)
    (args : List String) (hplat : env.platform ≠ "darwin") :
    Exporter.runScript ex env st args =
      (.error (.UnsupportedPlatformError env.platform), st) := by
  simp [Exporter.runScript, checkPlatform, hplat]

theorem runScriptSync_not_darwin (ex : Exporter) (env : Env) (st : RunState)
    (args : List String) (hplat : env.platform ≠ "darwin") :
    Exporter.runScriptSync ex env st args =
      (.error (.UnsupportedPlatformError env.platform), st) := by
  simp [Exporter.runScriptSync, checkPlatform, hplat]

theorem exportFolderImpl_eq (ex : Exporter) (env : Env) (st : RunState)
    (folderSpec outputDir : String)
    (hne : pathResolve env.cwd outputDir ≠ "") :
    Exporter.exportFolderImpl ex env st folderSpec outputDir =
      Exporter.runScript ex env
        { st with fs := st.fs.mkdirRecursive (pathResolve env.cwd outputDir) }
        ["export", folderSpec, pathResolve env.cwd outputDir] := by
  simp [Exporter.exportFolderImpl, Exporter.prepareOutputDir, hne]

theorem exportFolderImplSync_eq (ex : Exporter) (env : Env) (st : RunState)
    (folderSpec outputDir : String)
    (hne : pathResolve env.cwd outputDir ≠ "") :
    Exporter.exportFolderImplSync ex env st folderSpec outputDir =
      Exporter.runScriptSync ex env
        { st with fs := st.fs.mkdirRecursive (pathResolve env.cwd outputDir) }
        ["export", folderSpec, pathResolve env.cwd outputDir] := by
  simp [Exporter.exportFolderImplSync, Exporter.prepareOutputDir, hne]

theorem runScript_state (ex : Exporter) (env : Env) (st : RunState)
    (args : List String) (hplat : env.platform = "darwin")
    (hscript : existsSync st.fs (scriptPathOf ex env) = true) :
    (Exporter.runScript ex env st args).2 =
      { st with spawned := st.spawned ++ ["osascript" :: scriptPathOf ex env :: args] } := by
  cases hsrc : ex.scriptSource with
  | embedded =>
    rw [scriptPathOf, hsrc] at hscript ⊢
    have h2 : existsSync st.fs (getVendoredScriptPath env) = true := hscript
    simp [Exporter.runScript, checkPlatform, hplat, hsrc,
      Exporter.runEmbeddedScript, h2, runScriptFile_state]
  | path p =>
    rw [scriptPathOf, hsrc] at hscript ⊢
    simp [Exporter.runScript, checkPlatform, hplat, hsrc, runScriptFile_state]

theorem runScriptSync_state (ex : Exporter) (env : Env) (st : RunState)
    (args : List String) (hplat : env.platform = "darwin")
    (hscript : existsSync st.fs (scriptPathOf ex env) = true) :
    (Exporter.runScriptSync ex env st args).2 =
      { st with spawned := st.spawned ++ ["osascript" :: scriptPathOf ex env :: args] } := by
  cases hsrc : ex.scriptSource with
  | embedded =>
    rw [scriptPathOf, hsrc] at hscript ⊢
    have h2 : existsSync st.fs (getVendoredScriptPath env) = true := hscript
    simp [Exporter.runScriptSync, checkPlatform, hplat, hsrc,
      Exporter.runEmbeddedScriptSync, h2, runScriptFileSync_state]
  | path p =>
    rw [scriptPathOf, hsrc] at hscript ⊢
    simp [Exporter.runScriptSync, checkPlatform, hplat, hsrc, runScriptFileSync_state]

/-! ### Claim theorems -/

/-- **C1**: In the asynchronous mode every process outcome is mapped exactly
as specified: a spawn failure rejects with `LaunchError` carrying the cause;
exit code 0 resolves; a non-zero exit code `n` rejects with
`ScriptFailedError n` and no stderr text; signal termination rejects with
`ScriptFailedError (-1)` and text naming the signal; neither code nor signal
rejects with `ScriptFailedError (-1)` and the text "Unknown error". -/
theorem C1_async_outcome_mapping (env : Env) (st : RunState)
    (scriptPath : String) (args : List String) :
    (Exporter.runScriptFile env st scriptPath args).1 =
      asyncOutcomeSpec (env.spawnResult ("osascript" :: scriptPath :: args)) := by
  cases h : env.spawnResult ("osascript" :: scriptPath :: args) with
  | errorEvent c => simp [Exporter.runScriptFile, asyncOutcomeSpec, h]
  | exitEvent code signal =>
    cases code with
    | none => cases signal <;> simp [Exporter.runScriptFile, asyncOutcomeSpec, h]
    | some c =>
      by_cases hc : c = 0
      · subst hc; simp [Exporter.runScriptFile, asyncOutcomeSpec, h]
      · simp [Exporter.runScriptFile, asyncOutcomeSpec, h, hc]

/-- **C2**: construction with an explicit path validates existence eagerly
(failing with `ScriptNotFoundError` for every non-existent path, and a
path-source exporter can never raise `ScriptNotFoundError` at call time),
while the default source is checked at every call: construction performs no
check, and a call on a darwin platform with the vendored script absent fails
with `ScriptNotFoundError` carrying the computed path, spawning nothing. -/
theorem C2_script_resolution_timing (env : Env) (p : String) :
    (existsSync env.fs (pathResolve env.cwd p) = false →
      Exporter.withScriptPath env p =
        .error (.ScriptNotFoundError (pathResolve env.cwd p))) ∧
    (existsSync env.fs (pathResolve env.cwd p) = true →
      Exporter.withScriptPath env p =
        .ok { scriptSource := .path (pathResolve env.cwd p) }) ∧
    (∀ st args q,
      (Exporter.runScript { scriptSource := .path p } env st args).1 ≠
        .error (.ScriptNotFoundError q)) ∧
    (∀ st args, env.platform = "darwin" →
      existsSync st.fs (getVendoredScriptPath env) = false →
      Exporter.runScript Exporter.create env st args =
        (.error (.ScriptNotFoundError (getVendoredScriptPath env)), st)) := by
  refine ⟨?_, ?_, ?_, ?_⟩
  · intro h; simp [Exporter.withScriptPath, h]
  · intro h; simp [Exporter.withScriptPath, h]
  · intro st args q
    by_cases hd : env.platform = "darwin"
    · simpa [Exporter.runScript, checkPlatform, hd] using
        runScriptFile_ne_scriptNotFound env st p args q
    · simp [Exporter.runScript, checkPlatform, hd]
  · intro st args hplat hexists
    simp [Exporter.runScript, checkPlatform, hplat, Exporter.create,
      Exporter.runEmbeddedScript, hexists]

/-- Witness for C2 at a concrete environment: the explicit path succeeds
eagerly when present, fails eagerly when absent, and the default source
fails at call time with the computed vendored path. -/
theorem C2_witness :
    (existsSync sampleEnv.fs (pathResolve sampleEnv.cwd "s.scpt") = true ∧
      Exporter.withScriptPath sampleEnv "s.scpt" =
        .ok { scriptSource := .path (pathResolve sampleEnv.cwd "s.scpt") }) ∧
    (existsSync emptyFsEnv.fs (pathResolve emptyFsEnv.cwd "s.scpt") = false ∧
      Exporter.withScriptPath emptyFsEnv "s.scpt" =
        .error (.ScriptNotFoundError (pathResolve emptyFsEnv.cwd "s.scpt"))) ∧
    (emptyFsEnv.platform = "darwin" ∧
      existsSync (RunState.init emptyFsEnv).fs (getVendoredScriptPath emptyFsEnv) = false ∧
      Exporter.runScript Exporter.create emptyFsEnv (RunState.init emptyFsEnv) ["list"] =
        (.error (.ScriptNotFoundError (getVendoredScriptPath emptyFsEnv)),
          RunState.init emptyFsEnv)) :=
  ⟨⟨by decide, (C2_script_resolution_timing sampleEnv "s.scpt").2.1 (by decide)⟩,
   ⟨by decide, (C2_script_resolution_timing emptyFsEnv "s.scpt").1 (by decide)⟩,
   ⟨rfl, by decide,
    (C2_script_resolution_timing emptyFsEnv "s.scpt").2.2.2
      (RunState.init emptyFsEnv) ["list"] rfl (by decide)⟩⟩

/-- **C6**: exporting from an account builds exactly the same invocation as
exporting the folder specifier `account ++ ":" ++ folder` (plain
concatenation with a literal colon, no escaping), in both the asynchronous
and the synchronous mode. -/
theorem C6_export_from_account_is_concatenation (ex : Exporter) (env : Env)
    (st : RunState) (account folder outputDir : String) :
    Exporter.exportFolderFromAccount ex env st account folder outputDir =
      Exporter.exportFolder ex env st (account ++ ":" ++ folder) outputDir ∧
    Exporter.exportFolderFromAccountSync ex env st account folder outputDir =
      Exporter.exportFolderSync ex env st (account ++ ":" ++ folder) outputDir :=
  ⟨rfl, rfl⟩

/-- **C8**: every convenience facade function equals constructing a
default-source exporter and calling the corresponding method with the same
arguments: the facade adds no state or logic of its own. -/
theorem C8_facade_delegation (env : Env) (st : RunState)
    (account folder outputDir : String) :
    listFolders env st = Exporter.listFolders Exporter.create env st ∧
    listFoldersSync env st = Exporter.listFoldersSync Exporter.create env st ∧
    exportFolder env st folder outputDir =
      Exporter.exportFolder Exporter.create env st folder outputDir ∧
    exportFolderSync env st folder outputDir =
      Exporter.exportFolderSync Exporter.create env st folder outputDir ∧
    exportFolderFromAccount env st account folder outputDir =
      Exporter.exportFolderFromAccount Exporter.create env st account folder outputDir ∧
    exportFolderFromAccountSync env st account folder outputDir =
      Exporter.exportFolderFromAccountSync Exporter.create env st account folder outputDir :=
  ⟨rfl, rfl, rfl, rfl, rfl, rfl⟩

/-- **C9**: explicit-path construction first resolves the caller's string
against the working directory; the resolved path is absolute whenever the
working directory is, and both the `ScriptNotFoundError` and the stored
script source carry the resolved path, not the original string. -/
theorem C9_withScriptPath_resolved_path (env : Env) (p : String)
    (hcwd : isAbsolute env.cwd = true) :
    isAbsolute (pathResolve env.cwd p) = true ∧
    (existsSync env.fs (pathResolve env.cwd p) = false →
      Exporter.withScriptPath env p =
        .error (.ScriptNotFoundError (pathResolve env.cwd p))) ∧
    (existsSync env.fs (pathResolve env.cwd p) = true →
      Exporter.withScriptPath env p =
        .ok { scriptSource := .path (pathResolve env.cwd p) }) := by
  refine ⟨isAbsolute_pathResolve env.cwd p hcwd, ?_, ?_⟩
  · intro h; simp [Exporter.withScriptPath, h]
  · intro h; simp [Exporter.withScriptPath, h]

/-- Witness for C9: the relative path "s.scpt" is stored resolved as
"/work/s.scpt", and in an empty filesystem the error carries the resolved
path. -/
theorem C9_witness :
    isAbsolute sampleEnv.cwd = true ∧
    isAbsolute (pathResolve sampleEnv.cwd "s.scpt") = true ∧
    Exporter.withScriptPath sampleEnv "s.scpt" =
      .ok { scriptSource := .path "/work/s.scpt" } ∧
    Exporter.withScriptPath emptyFsEnv "s.scpt" =
      .error (.ScriptNotFoundError "/work/s.scpt") :=
  ⟨by decide,
   (C9_withScriptPath_resolved_path sampleEnv "s.scpt" (by decide)).1,
   (C9_withScriptPath_resolved_path sampleEnv "s.scpt" (by decide)).2.2 (by decide),
   (C9_withScriptPath_resolved_path emptyFsEnv "s.scpt" (by decide)).2.1 (by decide)⟩

/-- **C10**: with an absolute working directory (as `process.cwd()` always
is), resolving any output directory string yields a non-empty absolute path,
so `prepareOutputDir` always succeeds and its `InvalidPathError` branch is
unreachable. -/
theorem C10_invalid_path_unreachable (env : Env) (st : RunState)
    (outputDir : String) (hcwd : isAbsolute env.cwd = true) :
    pathResolve env.cwd outputDir ≠ "" ∧
    isAbsolute (pathResolve env.cwd outputDir) = true ∧
    (Exporter.prepareOutputDir env st outputDir).1 =
      .ok (pathResolve env.cwd outputDir) ∧
    ∀ q, (Exporter.prepareOutputDir env st outputDir).1 ≠
      .error (.InvalidPathError q) := by
  have hne := pathResolve_ne_empty env.cwd outputDir hcwd
  refine ⟨hne, isAbsolute_pathResolve env.cwd outputDir hcwd, ?_, ?_⟩
  · simp [Exporter.prepareOutputDir, hne]
  · intro q; simp [Exporter.prepareOutputDir, hne]

/-- Witness for C10: preparing "out" in the sample environment resolves to
"/work/out" and succeeds. -/
theorem C10_witness :
    isAbsolute sampleEnv.cwd = true ∧
    pathResolve sampleEnv.cwd "out" ≠ "" ∧
    (Exporter.prepareOutputDir sampleEnv (RunState.init sampleEnv) "out").1 =
      .ok (pathResolve sampleEnv.cwd "out") :=
  ⟨by decide,
   (C10_invalid_path_unreachable sampleEnv (RunState.init sampleEnv) "out" (by decide)).1,
   (C10_invalid_path_unreachable sampleEnv (RunState.init sampleEnv) "out" (by decide)).2.2.1⟩

/-- **C7**: output-directory preparation is idempotent: if it succeeds once
with path `a`, calling it again on the same input succeeds with the same `a`
and leaves the filesystem state exactly as after the first call. -/
theorem C7_prepareOutputDir_idempotent (env : Env) (st : RunState)
    (outputDir a : String)
    (h : (Exporter.prepareOutputDir env st outputDir).1 = .ok a) :
    Exporter.prepareOutputDir env
        (Exporter.prepareOutputDir env st outputDir).2 outputDir =
      (.ok a, (Exporter.prepareOutputDir env st outputDir).2) := by
  by_cases hres : pathResolve env.cwd outputDir = ""
  · simp [Exporter.prepareOutputDir, hres] at h
  · have h1 : Exporter.prepareOutputDir env st outputDir =
        (.ok (pathResolve env.cwd outputDir),
          { st with fs := st.fs.mkdirRecursive (pathResolve env.cwd outputDir) }) := by
      simp [Exporter.prepareOutputDir, hres]
    have ha : a = pathResolve env.cwd outputDir := by
      rw [h1] at h
      exact (Except.ok.inj h).symm
    subst ha
    rw [h1]
    simp [Exporter.prepareOutputDir, hres, mkdirRecursive_idem]

/-- Witness for C7 at the sample environment: preparing "out" twice succeeds
both times with "/work/out" and the second call changes nothing. -/
theorem C7_witness :
    (Exporter.prepareOutputDir sampleEnv (RunState.init sampleEnv) "out").1 =
      .ok "/work/out" ∧
    Exporter.prepareOutputDir sampleEnv
        (Exporter.prepareOutputDir sampleEnv (RunState.init sampleEnv) "out").2 "out" =
      (.ok "/work/out",
        (Exporter.prepareOutputDir sampleEnv (RunState.init sampleEnv) "out").2) :=
  ⟨rfl, C7_prepareOutputDir_idempotent sampleEnv (RunState.init sampleEnv)
    "out" "/work/out" rfl⟩

/-- **C3** counterexample: on a non-darwin platform the export call does fail
with `UnsupportedPlatformError`, but the output directory HAS been created
("/work/out" is in the filesystem afterwards), contradicting the claim that
no output directory is created when the platform check fails. -/
theorem C3_counterexample :
    (exportFolder linuxEnv (RunState.init linuxEnv) "Notes" "out").1 =
      .error (.UnsupportedPlatformError "linux") ∧
    pathResolve linuxEnv.cwd "out" ∈
      (exportFolder linuxEnv (RunState.init linuxEnv) "Notes" "out").2.fs.dirs :=
  ⟨rfl, by decide⟩

/-- **C3 amended**: on a platform other than darwin every operation fails
with `UnsupportedPlatformError` and no child process is spawned; a list call
leaves the state untouched, but an export call creates the output directory
nevertheless, because invocation building (which performs the directory
creation) runs before the platform guard. -/
theorem C3_amended_platform_guard (ex : Exporter) (env : Env) (st : RunState)
    (folder outputDir : String) (hplat : env.platform ≠ "darwin")
    (hcwd : isAbsolute env.cwd = true) :
    Exporter.listFolders ex env st =
      (.error (.UnsupportedPlatformError env.platform), st) ∧
    Exporter.listFoldersSync ex env st =
      (.error (.UnsupportedPlatformError env.platform), st) ∧
    (Exporter.exportFolder ex env st folder outputDir).1 =
      .error (.UnsupportedPlatformError env.platform) ∧
    (Exporter.exportFolderSync ex env st folder outputDir).1 =
      .error (.UnsupportedPlatformError env.platform) ∧
    (Exporter.exportFolder ex env st folder outputDir).2.spawned = st.spawned ∧
    (Exporter.exportFolderSync ex env st folder outputDir).2.spawned = st.spawned ∧
    pathResolve env.cwd outputDir ∈
      (Exporter.exportFolder ex env st folder outputDir).2.fs.dirs ∧
    pathResolve env.cwd outputDir ∈
      (Exporter.exportFolderSync ex env st folder outputDir).2.fs.dirs := by
  have hne := pathResolve_ne_empty env.cwd outputDir hcwd
  have hasync : Exporter.exportFolder ex env st folder outputDir =
      (.error (.UnsupportedPlatformError env.platform),
        { st with fs := st.fs.mkdirRecursive (pathResolve env.cwd outputDir) }) := by
    show Exporter.exportFolderImpl ex env st folder outputDir = _
    rw [exportFolderImpl_eq ex env st folder outputDir hne,
      runScript_not_darwin _ _ _ _ hplat]
  have hsync : Exporter.exportFolderSync ex env st folder outputDir =
      (.error (.UnsupportedPlatformError env.platform),
        { st with fs := st.fs.mkdirRecursive (pathResolve env.cwd outputDir) }) := by
    show Exporter.exportFolderImplSync ex env st folder outputDir = _
    rw [exportFolderImplSync_eq ex env st folder outputDir hne,
      runScriptSync_not_darwin _ _ _ _ hplat]
  refine ⟨runScript_not_darwin ex env st ["list"] hplat,
    runScriptSync_not_darwin ex env st ["list"] hplat, ?_, ?_, ?_, ?_, ?_, ?_⟩
  · rw [hasync]
  · rw [hsync]
  · rw [hasync]
  · rw [hsync]
  · rw [hasync]
    exact mem_dirs_mkdirRecursive st.fs _ _ (mem_dirAncestors_self _)
  · rw [hsync]
    exact mem_dirs_mkdirRecursive st.fs _ _ (mem_dirAncestors_self _)

/-- Witness for the amended C3 at the concrete linux environment. -/
theorem C3_amended_witness :
    linuxEnv.platform ≠ "darwin" ∧
    isAbsolute linuxEnv.cwd = true ∧
    Exporter.listFolders Exporter.create linuxEnv (RunState.init linuxEnv) =
      (.error (.UnsupportedPlatformError "linux"), RunState.init linuxEnv) ∧
    pathResolve linuxEnv.cwd "out" ∈
      (Exporter.exportFolder Exporter.create linuxEnv
        (RunState.init linuxEnv) "Notes" "out").2.fs.dirs :=
  ⟨by decide, by decide,
   (C3_amended_platform_guard Exporter.create linuxEnv (RunState.init linuxEnv)
     "Notes" "out" (by decide) (by decide)).1,
   (C3_amended_platform_guard Exporter.create linuxEnv (RunState.init linuxEnv)
     "Notes" "out" (by decide) (by decide)).2.2.2.2.2.2.1⟩

/-- **C4** counterexample: for the signal-termination outcome the two modes
disagree.  With the child killed by SIGKILL, the synchronous runner throws
`ScriptFailedError (-1)` with no stderr text, while the asynchronous runner
rejects with `ScriptFailedError (-1)` carrying text naming the signal; the
two errors are different. -/
theorem C4_counterexample :
    (Exporter.runScriptFileSync sigKillEnv (RunState.init sigKillEnv)
        "/work/s.scpt" ["list"]).1 =
      .error (.ScriptFailedError (-1) none) ∧
    (Exporter.runScriptFile sigKillEnv (RunState.init sigKillEnv)
        "/work/s.scpt" ["list"]).1 =
      .error (.ScriptFailedError (-1)
        (some "Process terminated by signal: SIGKILL")) ∧
    ExportError.ScriptFailedError (-1) none ≠
      ExportError.ScriptFailedError (-1)
        (some "Process terminated by signal: SIGKILL") :=
  ⟨rfl, rfl, by decide⟩

/-- **C4 amended**: on corresponding process outcomes the two modes agree for
spawn failures and for exits that report a numeric code (0 → success,
non-zero `n` → `ScriptFailedError n` with no stderr text); when no code is
reported (signal termination or the anomalous no-code-no-signal case) both
modes reject with exit code -1, but the synchronous mode carries no
descriptive text while the asynchronous mode does. -/
theorem C4_amended_outcome_mapping (envA envS : Env) (stA stS : RunState)
    (sp : String) (args : List String) (o : SpawnOutcome)
    (hA : envA.spawnResult ("osascript" :: sp :: args) = o)
    (hS : envS.spawnSyncResult ("osascript" :: sp :: args) = syncResultOfOutcome o) :
    (∀ cause, o = .errorEvent cause →
      (Exporter.runScriptFileSync envS stS sp args).1 =
        (Exporter.runScriptFile envA stA sp args).1) ∧
    (∀ c s, o = .exitEvent (some c) s →
      (Exporter.runScriptFileSync envS stS sp args).1 =
        (Exporter.runScriptFile envA stA sp args).1) ∧
    (∀ s, o = .exitEvent none s →
      (Exporter.runScriptFileSync envS stS sp args).1 =
        .error (.ScriptFailedError (-1) none) ∧
      ∃ t, (Exporter.runScriptFile envA stA sp args).1 =
        .error (.ScriptFailedError (-1) (some t))) := by
  refine ⟨?_, ?_, ?_⟩
  · intro cause ho
    subst ho
    simp [Exporter.runScriptFileSync, Exporter.runScriptFile, hA, hS,
      syncResultOfOutcome]
  · intro c s ho
    subst ho
    by_cases hc : c = 0
    · subst hc
      simp [Exporter.runScriptFileSync, Exporter.runScriptFile, hA, hS,
        syncResultOfOutcome]
    · simp [Exporter.runScriptFileSync, Exporter.runScriptFile, hA, hS,
        syncResultOfOutcome, hc]
  · intro s ho
    subst ho
    cases s with
    | some sig =>
      refine ⟨?_, "Process terminated by signal: " ++ sig, ?_⟩ <;>
        simp [Exporter.runScriptFileSync, Exporter.runScriptFile, hA, hS,
          syncResultOfOutcome]
    | none =>
      refine ⟨?_, "Unknown error", ?_⟩ <;>
        simp [Exporter.runScriptFileSync, Exporter.runScriptFile, hA, hS,
          syncResultOfOutcome]

/-- Witness for the amended C4: on a clean exit (code 0) the two modes
produce the same result in the sample environment. -/
theorem C4_amended_witness :
    sampleEnv.spawnResult ["osascript", "/work/s.scpt", "list"] =
      .exitEvent (some 0) none ∧
    sampleEnv.spawnSyncResult ["osascript", "/work/s.scpt", "list"] =
      syncResultOfOutcome (.exitEvent (some 0) none) ∧
    (Exporter.runScriptFileSync sampleEnv (RunState.init sampleEnv)
        "/work/s.scpt" ["list"]).1 =
      (Exporter.runScriptFile sampleEnv (RunState.init sampleEnv)
        "/work/s.scpt" ["list"]).1 :=
  ⟨rfl, rfl,
   (C4_amended_outcome_mapping sampleEnv sampleEnv (RunState.init sampleEnv)
       (RunState.init sampleEnv) "/work/s.scpt" ["list"]
       (.exitEvent (some 0) none) rfl rfl).2.1 0 none rfl⟩

/-- **C5**: the list operation spawns the single-element invocation
`["list"]` and the export operation spawns the three-element invocation
`["export", folderSpec, absoluteOutputPath]` after the resolved script path;
the final argument is absolute whatever the given output directory was, and
after invocation building the output directory and all its missing parents
exist on the filesystem. -/
theorem C5_invocation_shape (ex : Exporter) (env : Env) (st : RunState)
    (folder outputDir : String)
    (hplat : env.platform = "darwin")
    (hscript : existsSync st.fs (scriptPathOf ex env) = true)
    (hcwd : isAbsolute env.cwd = true) :
    (Exporter.listFolders ex env st).2.spawned =
      st.spawned ++ [["osascript", scriptPathOf ex env, "list"]] ∧
    isAbsolute (pathResolve env.cwd outputDir) = true ∧
    (Exporter.exportFolder ex env st folder outputDir).2.spawned =
      st.spawned ++ [["osascript", scriptPathOf ex env, "export", folder,
        pathResolve env.cwd outputDir]] ∧
    pathResolve env.cwd outputDir ∈
      (Exporter.exportFolder ex env st folder outputDir).2.fs.dirs ∧
    ∀ d ∈ parentPaths (pathResolve env.cwd outputDir),
      d ∈ (Exporter.exportFolder ex env st folder outputDir).2.fs.dirs := by
  have hne := pathResolve_ne_empty env.cwd outputDir hcwd
  have hexp : Exporter.exportFolder ex env st folder outputDir =
      Exporter.runScript ex env
        { st with fs := st.fs.mkdirRecursive (pathResolve env.cwd outputDir) }
        ["export", folder, pathResolve env.cwd outputDir] := by
    show Exporter.exportFolderImpl ex env st folder outputDir = _
    exact exportFolderImpl_eq ex env st folder outputDir hne
  have hscript2 : existsSync
      (st.fs.mkdirRecursive (pathResolve env.cwd outputDir))
      (scriptPathOf ex env) = true :=
    existsSync_mkdirRecursive st.fs _ _ hscript
  have hstate := runScript_state ex env
    { st with fs := st.fs.mkdirRecursive (pathResolve env.cwd outputDir) }
    ["export", folder, pathResolve env.cwd outputDir] hplat hscript2
  refine ⟨?_, isAbsolute_pathResolve env.cwd outputDir hcwd, ?_, ?_, ?_⟩
  · rw [Exporter.listFolders, runScript_state ex env st ["list"] hplat hscript]
  · rw [hexp, hstate]
  · rw [hexp, hstate]
    exact mem_dirs_mkdirRecursive st.fs _ _ (mem_dirAncestors_self _)
  · intro d hd
    rw [hexp, hstate]
    exact mem_dirs_mkdirRecursive st.fs _ d
      (by simp [dirAncestors, hd])

/-- Witness for C5 at the sample environment with the default (vendored)
script source: list spawns `["list"]`, export spawns
`["export", "Notes", "/work/out"]` and "/work/out" exists afterwards. -/
theorem C5_witness :
    sampleEnv.platform = "darwin" ∧
    existsSync (RunState.init sampleEnv).fs
      (scriptPathOf Exporter.create sampleEnv) = true ∧
    isAbsolute sampleEnv.cwd = true ∧
    (Exporter.listFolders Exporter.create sampleEnv (RunState.init sampleEnv)).2.spawned =
      [["osascript", scriptPathOf Exporter.create sampleEnv, "list"]] ∧
    (Exporter.exportFolder Exporter.create sampleEnv (RunState.init sampleEnv)
        "Notes" "out").2.spawned =
      [["osascript", scriptPathOf Exporter.create sampleEnv, "export", "Notes",
        pathResolve sampleEnv.cwd "out"]] ∧
    pathResolve sampleEnv.cwd "out" ∈
      (Exporter.exportFolder Exporter.create sampleEnv (RunState.init sampleEnv)
        "Notes" "out").2.fs.dirs :=
  ⟨rfl, by decide, by decide,
   (C5_invocation_shape Exporter.create sampleEnv (RunState.init sampleEnv)
     "Notes" "out" rfl (by decide) (by decide)).1,
   (C5_invocation_shape Exporter.create sampleEnv (RunState.init sampleEnv)
     "Notes" "out" rfl (by decide) (by decide)).2.2.1,
   (C5_invocation_shape Exporter.create sampleEnv (RunState.init sampleEnv)
     "Notes" "out" rfl (by decide) (by decide)).2.2.2.1⟩
